import Mathlib

/-!
Verification development for a LINE messaging webhook bot (`app.py`).

The source is a Flask application that receives LINE webhook events
(text, image, video, postback), persists text messages to a local per-day
log file and a PostgreSQL table, and uploads image/video attachments to
Google Drive under per-day subfolders, deduplicating by message id via
process-local sets.

The embedding below is a shallow functional model of `app.py`:
strings are modelled as `List Char`, timestamps as epoch milliseconds
(`Int`), the Google Drive remote as an explicit `DriveState`, the process
state (seen-id sets, video counters, local log, database rows, replies) as
an `AppState`, and external collaborators (profile lookup, content fetch,
provider failures, the server timezone offset) as an `Env` record of
oracles and fault-injection flags.  Python exceptions are modelled with
`Except` / an explicit `Outcome.raised`; a handler mutates state in place,
so a raising handler still returns the state reached so far.
-/

/-! ## Python string helpers -/

/-- The whitespace characters stripped by Python `str.strip()`
(modelled over the ASCII whitespace class; Python additionally strips some
rarer Unicode space code points, which no claim depends on). -/
def pySpace (c : Char) : Bool :=
  c = ' ' ∨ c = '\t' ∨ c = '\n' ∨ c = '\r' ∨ c = '\x0b' ∨ c = '\x0c'

/-- Python `str.strip()`: drop leading and trailing whitespace. -/
def pyStripL (cs : List Char) : List Char :=
  ((cs.dropWhile pySpace).reverse.dropWhile pySpace).reverse

/-- Python `str.split(sep)` (no maxsplit) for a one-character separator:
splits on every occurrence, keeping empty pieces; `[]` splits to `[[]]`
just as `"".split(sep) == [""]` in Python. -/
def splitAll (sep : Char) : List Char → List (List Char)
  | [] => [[]]
  | c :: cs =>
    if c = sep then [] :: splitAll sep cs
    else
      match splitAll sep cs with
      | [] => [[c]]
      | p :: ps => (c :: p) :: ps

/-- Python `str.split(sep, 1)` when the separator occurs: the part before
the first occurrence and the rest after it; `none` when absent
(mirrors the `"," in details` guard of `handle_text_message`). -/
def splitFirst (sep : Char) : List Char → Option (List Char × List Char)
  | [] => none
  | c :: cs =>
    if c = sep then some ([], cs)
    else (splitFirst sep cs).map (fun p => (c :: p.1, p.2))

/-- Numeric value of a nonempty all-digit string, else `none`
(the digit test is the ASCII `\x64` class of `re`; Python's `\x64` also
admits Unicode decimal digits, which no claim depends on). -/
def digitsVal (cs : List Char) : Option Nat :=
  if cs ≠ [] ∧ cs.all Char.isDigit then
    some (cs.foldl (fun acc c => acc * 10 + (c.toNat - 48)) 0)
  else none

/-! ## Calendar arithmetic (embedding of `datetime`) -/

/-- Gregorian leap-year test, as validated by `datetime.date`. -/
def leapYear (y : Nat) : Bool :=
  y % 4 = 0 ∧ (y % 100 ≠ 0 ∨ y % 400 = 0)

/-- Days in a month, as validated by `datetime.date`. -/
def daysInMonth (y m : Nat) : Nat :=
  if m = 2 then (if leapYear y then 29 else 28)
  else if m = 4 ∨ m = 6 ∨ m = 9 ∨ m = 11 then 30
  else 31

/-- Embedding of `datetime.strptime(s, "%Y-%m-%d")`: exactly three
dash-separated fields; a 4-digit year (year 0 rejected by `datetime`),
a 1–2 digit month in 1..12, a 1–2 digit day in 1..31 that exists in the
month; whole string consumed.  Returns the parsed (year, month, day). -/
def parseDateYMD (cs : List Char) : Option (Nat × Nat × Nat) :=
  match splitAll '-' cs with
  | [ys, ms, ds] =>
    match digitsVal ys, digitsVal ms, digitsVal ds with
    | some y, some m, some d =>
      if ys.length = 4 ∧ 1 ≤ y ∧
         ms.length ≤ 2 ∧ 1 ≤ m ∧ m ≤ 12 ∧
         ds.length ≤ 2 ∧ 1 ≤ d ∧ d ≤ daysInMonth y m
      then some (y, m, d) else none
    | _, _, _ => none
  | _ => none

/-- Civil date from days since the Unix epoch (proleptic Gregorian),
the conversion performed by `datetime.fromtimestamp`. -/
def civilFromDays (z : Int) : Nat × Nat × Nat :=
  let zs := z + 719468
  let era : Int := zs.ediv 146097
  let doe : Nat := (zs.emod 146097).toNat
  let yoe : Nat := (doe - doe / 1460 + doe / 36524 - doe / 146096) / 365
  let doy : Nat := doe - (365 * yoe + yoe / 4 - yoe / 100)
  let mp : Nat := (5 * doy + 2) / 153
  let d : Nat := doy - (153 * mp + 2) / 5 + 1
  let m : Nat := if mp < 10 then mp + 3 else mp - 9
  let y : Int := (yoe : Int) + era * 400 + (if m ≤ 2 then 1 else 0)
  (y.toNat, m, d)

/-- Decimal digits of `n` zero-padded to width 2 (strftime `%m`, `%d`,
`%H`, `%M`). -/
def pad2 (n : Nat) : List Char :=
  if n < 10 then '0' :: Nat.toDigits 10 n else Nat.toDigits 10 n

/-- Decimal digits of `n` zero-padded to width 4 (strftime `%Y`). -/
def pad4 (n : Nat) : List Char :=
  let ds := Nat.toDigits 10 n
  List.replicate (4 - ds.length) '0' ++ ds

/-- Local wall-clock epoch seconds of an event: `datetime.fromtimestamp(
ms / 1000)` reads the timestamp through the server's local timezone,
modelled as a fixed offset `tz` in seconds added to UTC epoch seconds. -/
def localSeconds (tz : Int) (ms : Int) : Int :=
  ms.ediv 1000 + tz

/-- Local civil (year, month, day) of an event timestamp. -/
def localCivil (tz : Int) (ms : Int) : Nat × Nat × Nat :=
  civilFromDays ((localSeconds tz ms).ediv 86400)

/-- Local (hour, minute) of an event timestamp. -/
def localHM (tz : Int) (ms : Int) : Nat × Nat :=
  let r := ((localSeconds tz ms).emod 86400).toNat
  (r / 3600, r % 3600 / 60)

/-- `dt.strftime("%Y-%m-%d")` of the local wall-clock time: the day
folder name used by both media handlers. -/
def localDayString (tz : Int) (ms : Int) : List Char :=
  let c := localCivil tz ms
  pad4 c.1 ++ '-' :: (pad2 c.2.1 ++ '-' :: pad2 c.2.2)

/-- `dt.strftime("%Y%m%d")` of the local wall-clock time. -/
def localDateCompact (tz : Int) (ms : Int) : List Char :=
  let c := localCivil tz ms
  pad4 c.1 ++ pad2 c.2.1 ++ pad2 c.2.2

/-- `dt.strftime("%H%M")` of the local wall-clock time. -/
def localTimeCompact (tz : Int) (ms : Int) : List Char :=
  let h := localHM tz ms
  pad2 h.1 ++ pad2 h.2

/-- `dt.strftime("%H:%M")` of the local wall-clock time. -/
def localTimeColon (tz : Int) (ms : Int) : List Char :=
  let h := localHM tz ms
  pad2 h.1 ++ ':' :: pad2 h.2

/-! ## `sanitize_filename` -/

/-- Membership in the character class `[A-Za-z0-9_\-]` of the regex in
`sanitize_filename`. -/
def filenameChar (c : Char) : Bool :=
  ('A' ≤ c ∧ c ≤ 'Z') ∨ ('a' ≤ c ∧ c ≤ 'z') ∨ ('0' ≤ c ∧ c ≤ '9') ∨
  c = '_' ∨ c = '-'

/-- `re.sub(r'[^A-Za-z0-9_\-]+', '', name)`: every maximal run of
characters outside the class is replaced by the empty string, i.e. each
out-of-class character is deleted. -/
def sanitize_filename : List Char → List Char
  | [] => []
  | c :: cs =>
    if filenameChar c then c :: sanitize_filename cs
    else sanitize_filename cs

/-! ## Environment of external collaborators -/

/-- External collaborators and fault injection for one run:
`userMapping` is the `USER_MAPPING` JSON blob, `profile` the LINE
profile lookup (`none` = `LineBotApiError`), `content` the media content
fetch (`none` = the fetch raises), `tzOffset` the server's UTC offset in
seconds, `nowMs` the clock read by `datetime.now()`, `rootFolderId` the
`GOOGLE_DRIVE_FOLDER_ID` configuration, and the four `fail*` flags inject
a provider exception into the corresponding Google Drive API call
(folder list query, folder create, file duplicate query, file create).
`dbFail` makes the database insert raise (caught inside
`insert_text_message_to_db`). -/
structure Env where
  userMapping : String → Option (List Char)
  profile : String → Option (List Char)
  content : String → Option (List Nat)
  tzOffset : Int
  nowMs : Int
  rootFolderId : String
  failFolderList : Bool
  failFolderCreate : Bool
  failFileList : Bool
  failFileCreate : Bool
  dbFail : Bool

/-- `get_display_name`: look up the configured user mapping, defaulting
to the sentinel. -/
def get_display_name (env : Env) (user_id : String) : List Char :=
  (env.userMapping user_id).getD ("Unknown").toList

/-! ## Google Drive model -/

/-- One Drive item (folders are files with the folder MIME type). -/
structure DriveFile where
  id : String
  name : List Char
  mimeType : String
  parents : List String
  trashed : Bool
deriving DecidableEq, Repr

/-- The remote Drive: the list of items and a counter for fresh ids. -/
structure DriveState where
  files : List DriveFile
  nextId : Nat
deriving DecidableEq, Repr

/-- The Google Drive folder MIME type used in the queries. -/
def folderMime : String := "application/vnd.google-apps.folder"

/-- The `files().list` query of `get_or_create_subfolder`:
`mimeType = folder and name = folder_name and parent_id in parents and
trashed = false`. -/
def folderQuery (s : DriveState) (parent_id : String)
    (folder_name : List Char) : List DriveFile :=
  s.files.filter fun f =>
    f.mimeType == folderMime && f.name == folder_name &&
    f.parents.contains parent_id && !f.trashed

/-- The duplicate-check `files().list` query of the upload functions:
`name = filename and parent_id in parents and trashed = false`
(note: no MIME-type restriction, exactly as in the source). -/
def fileQuery (s : DriveState) (parent_id : String)
    (filename : List Char) : List DriveFile :=
  s.files.filter fun f =>
    f.name == filename && f.parents.contains parent_id && !f.trashed

/-- `get_or_create_subfolder(drive_service, parent_id, folder_name)`:
query for an existing subfolder; return the first hit's id, else create a
fresh folder and return its id.  Provider exceptions (injected by the
`Env` flags) propagate: nothing in the source catches here. -/
def get_or_create_subfolder (env : Env) (s : DriveState)
    (parent_id : String) (folder_name : List Char) :
    Except Unit (String × DriveState) :=
  if env.failFolderList then .error () else
  match folderQuery s parent_id folder_name with
  | f :: _ => .ok (f.id, s)
  | [] =>
    if env.failFolderCreate then .error () else
    let fid := "gid" ++ toString s.nextId
    .ok (fid, ⟨s.files ++ [⟨fid, folder_name, folderMime, [parent_id], false⟩],
               s.nextId + 1⟩)

/-- `upload_image_to_drive(file_stream, filename, day_folder)`: resolve
the day subfolder, query for a file of the same name (return its id if
found), else upload.  Only the final `files().create` upload is inside
`try/except` in the source (caught → `None`); exceptions from the folder
resolution and from the duplicate query propagate. -/
def upload_image_to_drive (env : Env) (s : DriveState)
    (file_stream : List Nat) (filename day_folder : List Char) :
    Except Unit (Option String × DriveState) :=
  match get_or_create_subfolder env s env.rootFolderId day_folder with
  | .error e => .error e
  | .ok (subfolder_id, s1) =>
    if env.failFileList then .error () else
    match fileQuery s1 subfolder_id filename with
    | f :: _ => .ok (some f.id, s1)
    | [] =>
      if env.failFileCreate then .ok (none, s1) else
      let fid := "gid" ++ toString s1.nextId
      .ok (some fid,
        ⟨s1.files ++ [⟨fid, filename, "image/jpeg", [subfolder_id], false⟩],
         s1.nextId + 1⟩)

/-- `upload_video_to_drive(file_stream, filename, day_folder)`:
identical to the image uploader except for the MIME type (the source
defines it twice with the same body; the later definition wins). -/
def upload_video_to_drive (env : Env) (s : DriveState)
    (file_stream : List Nat) (filename day_folder : List Char) :
    Except Unit (Option String × DriveState) :=
  match get_or_create_subfolder env s env.rootFolderId day_folder with
  | .error e => .error e
  | .ok (subfolder_id, s1) =>
    if env.failFileList then .error () else
    match fileQuery s1 subfolder_id filename with
    | f :: _ => .ok (some f.id, s1)
    | [] =>
      if env.failFileCreate then .ok (none, s1) else
      let fid := "gid" ++ toString s1.nextId
      .ok (some fid,
        ⟨s1.files ++ [⟨fid, filename, "video/mp4", [subfolder_id], false⟩],
         s1.nextId + 1⟩)

/-! ## Process state and webhook events -/

/-- The process-wide mutable state of the application plus its observable
persistence effects: the Drive remote, the two seen-id sets
(`processed_image_ids`, `processed_video_ids`), the `video_counters`
dictionary, the local per-day log (day string, appended line), the
database rows `(user_id, display_name, text, created_at)`, the replies
sent, and a ghost log `uploadArgs` recording each (filename, day_folder)
the handlers pass to an uploader — the stub uploader call counter the
spec's testable properties describe. -/
structure AppState where
  drive : DriveState
  processed_image_ids : List String
  processed_video_ids : List String
  video_counters : List ((String × List Char × List Char) × Nat)
  localLog : List (List Char × List Char)
  db : List (String × List Char × List Char × Int)
  replies : List (List Char)
  uploadArgs : List (List Char × List Char)
deriving DecidableEq, Repr

/-- How one handler invocation ended: skipped by the dedup check,
completed normally, or raised an (uncaught) exception. -/
inductive Outcome
  | skipped
  | completed
  | raised
deriving DecidableEq, Repr

/-- An image or video message event: sender, message id, timestamp. -/
structure MsgEvent where
  userId : String
  messageId : String
  timestampMs : Int
deriving DecidableEq, Repr

/-- A webhook event as dispatched by the `WebhookHandler`. -/
inductive InEvent
  | text (userId : String) (body : List Char) (timestampMs : Int)
  | image (ev : MsgEvent)
  | video (ev : MsgEvent)
  | postback (userId : String) (data : List Char)
deriving DecidableEq, Repr

/-! ## Text handler -/

/-- The bare command string checked first. -/
def albumCmd : List Char := ("建立相簿").toList

/-- The command head with the colon. -/
def albumCmdColon : List Char := ("建立相簿:").toList

/-- Usage reply for the bare command. -/
def usageMsg : List Char :=
  ("請輸入相簿資料，格式：\n建立相簿: YYYY-MM-DD, 相簿名稱\n例如：建立相簿: 2023-03-12, 我的假期").toList

/-- Reply when the remainder has no comma. -/
def formatErrorMsg : List Char :=
  ("請使用正確格式，範例：建立相簿: 2023-03-12, 我的假期").toList

/-- Reply when the date part does not parse. -/
def badDateMsg : List Char :=
  ("日期格式不正確，請使用 YYYY-MM-DD 格式").toList

/-- Confirmation reply carrying the composed album name. -/
def createdReply (full_album_name : List Char) : List Char :=
  ("相簿已建立：").toList ++ full_album_name

/-- `handle_text_message`: strip the text; answer the bare command with
usage; parse the `建立相簿:` command (split at the first comma, trim,
validate the date, reply confirmation or the corrective message); else
append the ordinary message to the local per-day log and insert it into
the database.  No branch of this handler raises. -/
def handle_text_message (env : Env) (s : AppState) (userId : String)
    (rawText : List Char) (ts : Int) : AppState × Outcome :=
  let text := pyStripL rawText
  let display_name := get_display_name env userId
  if text = albumCmd then
    ({ s with replies := s.replies ++ [usageMsg] }, .completed)
  else if albumCmdColon.isPrefixOf text then
    let details := pyStripL (text.drop albumCmdColon.length)
    match splitFirst ',' details with
    | some (dpRaw, anRaw) =>
      let date_part := pyStripL dpRaw
      let album_name := pyStripL anRaw
      match parseDateYMD date_part with
      | none => ({ s with replies := s.replies ++ [badDateMsg] }, .completed)
      | some _ =>
        let full_album_name := date_part ++ '_' :: album_name
        ({ s with replies := s.replies ++ [createdReply full_album_name] },
         .completed)
    | none => ({ s with replies := s.replies ++ [formatErrorMsg] }, .completed)
  else
    let line := localTimeColon env.tzOffset ts ++ (" | ").toList ++
      display_name ++ (" | ").toList ++ text ++ ['\n']
    let s1 := { s with
      localLog := s.localLog ++ [(localDayString env.tzOffset ts, line)] }
    let s2 :=
      if env.dbFail then s1
      else { s1 with db := s1.db ++ [(userId, display_name, text, ts)] }
    (s2, .completed)

/-! ## Media handlers -/

/-- The image filename
`{sanitized display name}_{YYYYMMDD}_{HHMM}_{message id}.jpg`
(profile-lookup failure falls back to the sentinel). -/
def image_filename (env : Env) (e : MsgEvent) : List Char :=
  let display_name :=
    match env.profile e.userId with
    | some nm => sanitize_filename nm
    | none => ("Unknown").toList
  display_name ++ '_' :: (localDateCompact env.tzOffset e.timestampMs ++
    '_' :: (localTimeCompact env.tzOffset e.timestampMs ++
    '_' :: (e.messageId.toList ++ (".jpg").toList)))

/-- The video filename, same shape with the `.mp4` extension. -/
def video_filename (env : Env) (e : MsgEvent) : List Char :=
  let display_name :=
    match env.profile e.userId with
    | some nm => sanitize_filename nm
    | none => ("Unknown").toList
  display_name ++ '_' :: (localDateCompact env.tzOffset e.timestampMs ++
    '_' :: (localTimeCompact env.tzOffset e.timestampMs ++
    '_' :: (e.messageId.toList ++ (".mp4").toList)))

/-- `video_counters.get(key, 0)` for the `(user, date, time)` key. -/
def counterGet (l : List ((String × List Char × List Char) × Nat))
    (k : String × List Char × List Char) : Nat :=
  ((l.find? fun p => p.1 == k).map fun p => p.2).getD 0

/-- `video_counters[key] = v` dictionary assignment. -/
def counterSet (l : List ((String × List Char × List Char) × Nat))
    (k : String × List Char × List Char) (v : Nat) :
    List ((String × List Char × List Char) × Nat) :=
  (k, v) :: l.filter fun p => p.1 != k

/-- Body of `handle_image_message` after the dedup guard (source lines
313–336): fetch the content (a raising fetch aborts the handler with the
id already recorded), build the filename and local day folder, call the
uploader; an uploader exception propagates, an absent result is only
logged. -/
def handle_image_rest (env : Env) (s : AppState) (e : MsgEvent) :
    AppState × Outcome :=
  match env.content e.messageId with
  | none => (s, .raised)
  | some file_stream =>
    let filename := image_filename env e
    let day_folder := localDayString env.tzOffset e.timestampMs
    let s1 := { s with uploadArgs := s.uploadArgs ++ [(filename, day_folder)] }
    match upload_image_to_drive env s1.drive file_stream filename day_folder with
    | .error _ => (s1, .raised)
    | .ok (_, d) => ({ s1 with drive := d }, .completed)

/-- `handle_image_message`: skip if the message id was already seen,
else record it (before any fetch or upload) and run the body. -/
def handle_image_message (env : Env) (s : AppState) (e : MsgEvent) :
    AppState × Outcome :=
  if e.messageId ∈ s.processed_image_ids then (s, .skipped)
  else
    handle_image_rest env
      { s with processed_image_ids := e.messageId :: s.processed_image_ids } e

/-- Body of `handle_video_message` after the dedup guard (source lines
348–372): fetch the content, bump the per-`(user, date, minute)` sequence
counter, build the filename and day folder, call the uploader. -/
def handle_video_rest (env : Env) (s : AppState) (e : MsgEvent) :
    AppState × Outcome :=
  match env.content e.messageId with
  | none => (s, .raised)
  | some file_stream =>
    let date_str := localDateCompact env.tzOffset e.timestampMs
    let time_str := localTimeCompact env.tzOffset e.timestampMs
    let key := (e.userId, date_str, time_str)
    let sequence := counterGet s.video_counters key + 1
    let s1 := { s with video_counters := counterSet s.video_counters key sequence }
    let filename := video_filename env e
    let day_folder := localDayString env.tzOffset e.timestampMs
    let s2 := { s1 with uploadArgs := s1.uploadArgs ++ [(filename, day_folder)] }
    match upload_video_to_drive env s2.drive file_stream filename day_folder with
    | .error _ => (s2, .raised)
    | .ok (_, d) => ({ s2 with drive := d }, .completed)

/-- `handle_video_message`: skip if the message id was already seen,
else record it (before any fetch or upload) and run the body. -/
def handle_video_message (env : Env) (s : AppState) (e : MsgEvent) :
    AppState × Outcome :=
  if e.messageId ∈ s.processed_video_ids then (s, .skipped)
  else
    handle_video_rest env
      { s with processed_video_ids := e.messageId :: s.processed_video_ids } e

/-! ## Postback handler -/

/-- The `dict(item.split("=") for item in data.split("&"))` construction:
each `&`-separated item must split on `=` into exactly two parts,
otherwise `dict` raises `ValueError`. -/
def pairsFromItems : List (List Char) → Except Unit (List (List Char × List Char))
  | [] => .ok []
  | item :: rest =>
    match splitAll '=' item with
    | [k, v] => (pairsFromItems rest).map fun ps => (k, v) :: ps
    | _ => .error ()

/-- `params.get(key)` on the dict built from the pair list: with
duplicate keys the later pair wins, as in a Python dict comprehension. -/
def dictGet (ps : List (List Char × List Char)) (k : List Char) :
    Option (List Char) :=
  (ps.reverse.find? fun p => p.1 == k).map fun p => p.2

/-- `handle_postback`: parse the `&`/`=` data (a malformed item raises an
uncaught `ValueError`); on `action=create_album` reply with the composed
album name, defaulting the date to today's local date and the name to
`default`; other actions do nothing. -/
def handle_postback (env : Env) (s : AppState) (userId : String)
    (data : List Char) : AppState × Outcome :=
  match pairsFromItems (splitAll '&' data) with
  | .error _ => (s, .raised)
  | .ok params =>
    if dictGet params ("action").toList = some (("create_album").toList) then
      let album_date :=
        (dictGet params ("album_date").toList).getD
          (localDayString env.tzOffset env.nowMs)
      let album_name :=
        (dictGet params ("album_name").toList).getD (("default").toList)
      let full_album_name := album_date ++ '_' :: album_name
      ({ s with replies := s.replies ++ [createdReply full_album_name] },
       .completed)
    else (s, .completed)

/-! ## Dispatcher and the `/callback` endpoint -/

/-- Dispatch one decoded event to the handler of its kind. -/
def dispatch_event (env : Env) (s : AppState) : InEvent → AppState × Outcome
  | .text userId body ts => handle_text_message env s userId body ts
  | .image e => handle_image_message env s e
  | .video e => handle_video_message env s e
  | .postback userId data => handle_postback env s userId data

/-- `handler.handle` over the decoded batch: events are processed in
order; a raising handler aborts the rest of the batch and the exception
propagates (the flag is `true`). -/
def process_events (env : Env) (s : AppState) :
    List InEvent → AppState × Bool
  | [] => (s, false)
  | e :: es =>
    match dispatch_event env s e with
    | (s1, Outcome.raised) => (s1, true)
    | (s1, _) => process_events env s1 es

/-- The HTTP result of the `/callback` endpoint: a 400 from
`abort(400)`, a 200 with a body, or an exception that escaped the
endpoint (Flask then answers 500). -/
inductive CallbackResult
  | aborted400
  | ok200 (body : String)
  | exn
deriving DecidableEq, Repr

/-- The `/callback` endpoint: an invalid signature makes
`handler.handle` raise `InvalidSignatureError`, caught and answered with
`abort(400)` before any event is decoded or dispatched; otherwise the
batch is processed and `("OK", 200)` is returned — unless a handler
raised, which only `InvalidSignatureError` being caught lets escape. -/
def callback (env : Env) (s : AppState) (signatureValid : Bool)
    (events : List InEvent) : AppState × CallbackResult :=
  if signatureValid then
    match process_events env s events with
    | (s1, true) => (s1, .exn)
    | (s1, false) => (s1, .ok200 ("OK"))
  else (s, .aborted400)

/-! ## Concrete fixtures for witnesses and counterexamples -/

/-- A benign environment: no configured mapping, failing profile lookup,
failing content fetch, UTC server clock, no injected provider faults. -/
def env0 : Env where
  userMapping := fun _ => none
  profile := fun _ => none
  content := fun _ => none
  tzOffset := 0
  nowMs := 0
  rootFolderId := "root"
  failFolderList := false
  failFolderCreate := false
  failFileList := false
  failFileCreate := false
  dbFail := false

/-- `env0` with content fetches succeeding. -/
def envFetch : Env :=
  { env0 with content := fun _ => some [0] }

/-- `envFetch` on a server at UTC-2 (offset −7200 s). -/
def envWest : Env :=
  { envFetch with tzOffset := -7200 }

/-- `env0` with an exception injected into the folder list query. -/
def envFolderListFail : Env :=
  { env0 with failFolderList := true }

/-- The empty Drive. -/
def drive0 : DriveState := ⟨[], 0⟩

/-- The initial process state. -/
def state0 : AppState := ⟨drive0, [], [], [], [], [], [], []⟩

/-- A concrete image/video event fixture. -/
def ev1 : MsgEvent := ⟨"u1", "m1", 1000000000000⟩

/-- `env0` with an exception injected into the duplicate file query. -/
def envFileListFail : Env :=
  { env0 with failFileList := true }

/-- `env0` with an exception injected into the file create (upload). -/
def envFileCreateFail : Env :=
  { env0 with failFileCreate := true }

/-- UTC day string of an epoch-millisecond timestamp (offset zero). -/
def utcDayString (ms : Int) : List Char := localDayString 0 ms

/-! ## Helper lemmas -/

/-- The sanitizer is exactly the filter on the allowed class. -/
theorem sanitize_filename_eq_filter (cs : List Char) :
    sanitize_filename cs = cs.filter filenameChar := by
  induction cs with
  | nil => rfl
  | cons c cs ih =>
    by_cases h : filenameChar c <;> simp [sanitize_filename, List.filter_cons, h, ih]

/-- A list is a Boolean prefix of itself followed by anything. -/
theorem isPrefixOf_append_self (l r : List Char) :
    l.isPrefixOf (l ++ r) = true := by
  induction l with
  | nil => cases r <;> rfl
  | cons c cs ih => simp [List.isPrefixOf, ih]

/-! ## C8 -/

/-- C8: the display-name sanitizer returns only characters of the class
`[A-Za-z0-9_-]` (the output matches `^[A-Za-z0-9_-]*$`), and it is the
order-preserving filter on that class: every character outside the class
is deleted and every character inside it is kept in order. -/
theorem c8_sanitize_filename_class (cs : List Char) :
    (sanitize_filename cs).all filenameChar = true
    ∧ sanitize_filename cs = cs.filter filenameChar := by
  refine ⟨?_, sanitize_filename_eq_filter cs⟩
  rw [sanitize_filename_eq_filter]
  simp [List.all_eq_true, List.mem_filter]

/-! ## C10 -/

/-- C10: there are postback data strings on which the postback handler
raises an uncaught exception (`ValueError` from the
`dict(item.split("=") ...)` construction) instead of replying or
ignoring: a value containing `=` as in
`action=create_album&album_name=a=b`, and an item with no `=` at all. -/
theorem c10_postback_malformed_raises :
    (handle_postback env0 state0 ("u")
       (("action=create_album&album_name=a=b").toList)).2 = Outcome.raised
    ∧ (handle_postback env0 state0 ("u") (("foo").toList)).2 = Outcome.raised := by
  exact ⟨rfl, rfl⟩

/-! ## C9 -/

/-- C9: day-folder resolution is an idempotent get-or-create — when the
provider calls do not raise, the first call returns a folder id (creating
the folder if absent) and a second call against the resulting storage
state returns the very same id without changing the state again. -/
theorem c9_get_or_create_subfolder_idempotent (env : Env) (s : DriveState)
    (parent_id : String) (folder_name : List Char)
    (h1 : env.failFolderList = false) (h2 : env.failFolderCreate = false) :
    ∃ fid s', get_or_create_subfolder env s parent_id folder_name
        = Except.ok (fid, s')
      ∧ get_or_create_subfolder env s' parent_id folder_name
        = Except.ok (fid, s') := by
  cases hq : folderQuery s parent_id folder_name with
  | cons f fs =>
    refine ⟨f.id, s, ?_, ?_⟩ <;> simp [get_or_create_subfolder, h1, hq]
  | nil =>
    refine ⟨"gid" ++ toString s.nextId,
      ⟨s.files ++ [⟨"gid" ++ toString s.nextId, folder_name, folderMime,
        [parent_id], false⟩], s.nextId + 1⟩, ?_, ?_⟩
    · simp [get_or_create_subfolder, h1, h2, hq]
    · have hq2 : folderQuery
          (⟨s.files ++ [⟨"gid" ++ toString s.nextId, folder_name, folderMime,
            [parent_id], false⟩], s.nextId + 1⟩ : DriveState)
          parent_id folder_name
          = [⟨"gid" ++ toString s.nextId, folder_name, folderMime,
              [parent_id], false⟩] := by
        have hbase : folderQuery s parent_id folder_name = [] := hq
        unfold folderQuery at hbase ⊢
        rw [List.filter_append, hbase]
        simp
      simp [get_or_create_subfolder, h1, hq2]

/-- Witness for C9 at a concrete empty Drive and day string. -/
theorem c9_witness :
    ∃ fid s', get_or_create_subfolder env0 drive0 ("root")
        (("2025-03-15").toList) = Except.ok (fid, s')
      ∧ get_or_create_subfolder env0 s' ("root")
        (("2025-03-15").toList) = Except.ok (fid, s') :=
  c9_get_or_create_subfolder_idempotent env0 drive0 ("root")
    (("2025-03-15").toList) rfl rfl

/-! ## C5 -/

/-- C5 counterexample: a provider error raised during folder resolution
propagates out of the upload operation as an exception — the call does
not return the absent result `None`. -/
theorem c5_counterexample :
    upload_image_to_drive envFolderListFail drive0 [] (("f.jpg").toList)
      (("2025-03-15").toList) = Except.error () := rfl

/-- Under no injected faults before the upload step, folder resolution
returns successfully. -/
theorem get_or_create_subfolder_ok (env : Env) (s : DriveState)
    (parent_id : String) (folder_name : List Char)
    (h1 : env.failFolderList = false) (h2 : env.failFolderCreate = false) :
    ∃ x, get_or_create_subfolder env s parent_id folder_name = Except.ok x := by
  cases hq : folderQuery s parent_id folder_name with
  | cons f fs => exact ⟨(f.id, s), by simp [get_or_create_subfolder, h1, hq]⟩
  | nil =>
    exact ⟨("gid" ++ toString s.nextId,
      ⟨s.files ++ [⟨"gid" ++ toString s.nextId, folder_name, folderMime,
        [parent_id], false⟩], s.nextId + 1⟩),
      by simp [get_or_create_subfolder, h1, h2, hq]⟩

/-- C5 amended: only an error raised during the final byte-upload
(`files().create`) is caught and surfaced as an absent result; an error
during folder resolution or during the duplicate-existence query is not
caught and propagates to the caller.  Stated for both uploaders:
(1) with no fault before the upload step, the call never raises, whatever
the upload step does; (2) a folder-resolution error propagates; (3) a
duplicate-query error propagates; (4) with only the upload step failing
and no duplicate present, the call returns `none`. -/
theorem c5_amended_upload_error_handling (env : Env) (d : DriveState)
    (fs : List Nat) (filename day_folder : List Char) :
    (env.failFolderList = false → env.failFolderCreate = false →
      env.failFileList = false →
      (∃ r, upload_image_to_drive env d fs filename day_folder = Except.ok r)
      ∧ (∃ r, upload_video_to_drive env d fs filename day_folder = Except.ok r))
    ∧ (env.failFolderList = true →
      upload_image_to_drive env d fs filename day_folder = Except.error ()
      ∧ upload_video_to_drive env d fs filename day_folder = Except.error ())
    ∧ (env.failFolderList = false → env.failFolderCreate = false →
      env.failFileList = true →
      upload_image_to_drive env d fs filename day_folder = Except.error ()
      ∧ upload_video_to_drive env d fs filename day_folder = Except.error ())
    ∧ (env.failFolderList = false → env.failFolderCreate = false →
      env.failFileList = false → env.failFileCreate = true → d.files = [] →
      filename ≠ day_folder →
      (∃ d1, upload_image_to_drive env d fs filename day_folder
        = Except.ok (none, d1))
      ∧ (∃ d1, upload_video_to_drive env d fs filename day_folder
        = Except.ok (none, d1))) := by
  refine ⟨?_, ?_, ?_, ?_⟩
  · intro h1 h2 h3
    obtain ⟨⟨fid, s1⟩, hx⟩ := get_or_create_subfolder_ok env d env.rootFolderId day_folder h1 h2
    constructor
    · cases hquery : fileQuery s1 fid filename with
      | cons f fs' =>
        exact ⟨(some f.id, s1), by simp [upload_image_to_drive, hx, h3, hquery]⟩
      | nil =>
        by_cases h4 : env.failFileCreate
        · exact ⟨(none, s1), by simp [upload_image_to_drive, hx, h3, hquery, h4]⟩
        · exact ⟨(some ("gid" ++ toString s1.nextId),
            ⟨s1.files ++ [⟨"gid" ++ toString s1.nextId, filename, "image/jpeg",
              [fid], false⟩], s1.nextId + 1⟩),
            by simp [upload_image_to_drive, hx, h3, hquery, h4]⟩
    · cases hquery : fileQuery s1 fid filename with
      | cons f fs' =>
        exact ⟨(some f.id, s1), by simp [upload_video_to_drive, hx, h3, hquery]⟩
      | nil =>
        by_cases h4 : env.failFileCreate
        · exact ⟨(none, s1), by simp [upload_video_to_drive, hx, h3, hquery, h4]⟩
        · exact ⟨(some ("gid" ++ toString s1.nextId),
            ⟨s1.files ++ [⟨"gid" ++ toString s1.nextId, filename, "video/mp4",
              [fid], false⟩], s1.nextId + 1⟩),
            by simp [upload_video_to_drive, hx, h3, hquery, h4]⟩
  · intro h1
    constructor <;>
      simp [upload_image_to_drive, upload_video_to_drive,
        get_or_create_subfolder, h1]
  · intro h1 h2 h3
    obtain ⟨⟨fid, s1⟩, hx⟩ := get_or_create_subfolder_ok env d env.rootFolderId day_folder h1 h2
    constructor <;> simp [upload_image_to_drive, upload_video_to_drive, hx, h3]
  · intro h1 h2 h3 h4 h5 h6
    have hq0 : folderQuery d env.rootFolderId day_folder = [] := by
      simp [folderQuery, h5]
    have hx : get_or_create_subfolder env d env.rootFolderId day_folder
        = Except.ok ("gid" ++ toString d.nextId,
            ⟨d.files ++ [⟨"gid" ++ toString d.nextId, day_folder, folderMime,
              [env.rootFolderId], false⟩], d.nextId + 1⟩) := by
      simp [get_or_create_subfolder, h1, h2, hq0]
    have hquery : fileQuery
        (⟨d.files ++ [⟨"gid" ++ toString d.nextId, day_folder, folderMime,
          [env.rootFolderId], false⟩], d.nextId + 1⟩ : DriveState)
        ("gid" ++ toString d.nextId) filename = [] := by
      simp [fileQuery, h5, List.filter_cons]
      intro hcontra
      exact absurd hcontra.symm h6
    rw [h5] at hx hquery
    simp only [List.nil_append] at hx hquery
    constructor
    · exact ⟨⟨[⟨"gid" ++ toString d.nextId, day_folder, folderMime,
        [env.rootFolderId], false⟩], d.nextId + 1⟩,
        by simp [upload_image_to_drive, hx, h3, hquery, h4]⟩
    · exact ⟨⟨[⟨"gid" ++ toString d.nextId, day_folder, folderMime,
        [env.rootFolderId], false⟩], d.nextId + 1⟩,
        by simp [upload_video_to_drive, hx, h3, hquery, h4]⟩

/-- Witness for C5 amended, exercising all four parts at concrete
environments and the empty Drive. -/
theorem c5_amended_witness :
    (∃ r, upload_image_to_drive env0 drive0 [] (("f.jpg").toList)
      (("2025-03-15").toList) = Except.ok r)
    ∧ upload_image_to_drive envFolderListFail drive0 [] (("f.jpg").toList)
      (("2025-03-15").toList) = Except.error ()
    ∧ upload_image_to_drive envFileListFail drive0 [] (("f.jpg").toList)
      (("2025-03-15").toList) = Except.error ()
    ∧ (∃ d1, upload_image_to_drive envFileCreateFail drive0 []
      (("f.jpg").toList) (("2025-03-15").toList) = Except.ok (none, d1)) := by
  refine ⟨?_, ?_, ?_, ?_⟩
  · exact ((c5_amended_upload_error_handling env0 drive0 [] (("f.jpg").toList)
      (("2025-03-15").toList)).1 rfl rfl rfl).1
  · exact ((c5_amended_upload_error_handling envFolderListFail drive0 []
      (("f.jpg").toList) (("2025-03-15").toList)).2.1 rfl).1
  · exact ((c5_amended_upload_error_handling envFileListFail drive0 []
      (("f.jpg").toList) (("2025-03-15").toList)).2.2.1 rfl rfl rfl).1
  · exact ((c5_amended_upload_error_handling envFileCreateFail drive0 []
      (("f.jpg").toList) (("2025-03-15").toList)).2.2.2 rfl rfl rfl rfl rfl
      (by decide)).1

/-- The body of the image handler never touches the seen-id sets, and it
either makes no uploader call or exactly one, with the filename and the
local-day folder of the event. -/
theorem handle_image_rest_state (env : Env) (s : AppState) (e : MsgEvent) :
    (handle_image_rest env s e).1.processed_image_ids = s.processed_image_ids
    ∧ (handle_image_rest env s e).1.processed_video_ids = s.processed_video_ids
    ∧ ((handle_image_rest env s e).1.uploadArgs = s.uploadArgs
       ∨ (handle_image_rest env s e).1.uploadArgs
         = s.uploadArgs ++ [(image_filename env e,
             localDayString env.tzOffset e.timestampMs)]) := by
  unfold handle_image_rest
  cases env.content e.messageId with
  | none => exact ⟨rfl, rfl, Or.inl rfl⟩
  | some bs =>
    dsimp only
    split
    · exact ⟨rfl, rfl, Or.inr rfl⟩
    · exact ⟨rfl, rfl, Or.inr rfl⟩

/-- The body of the video handler never touches the seen-id sets, and it
either makes no uploader call or exactly one, with the filename and the
local-day folder of the event. -/
theorem handle_video_rest_state (env : Env) (s : AppState) (e : MsgEvent) :
    (handle_video_rest env s e).1.processed_image_ids = s.processed_image_ids
    ∧ (handle_video_rest env s e).1.processed_video_ids = s.processed_video_ids
    ∧ ((handle_video_rest env s e).1.uploadArgs = s.uploadArgs
       ∨ (handle_video_rest env s e).1.uploadArgs
         = s.uploadArgs ++ [(video_filename env e,
             localDayString env.tzOffset e.timestampMs)]) := by
  unfold handle_video_rest
  cases env.content e.messageId with
  | none => exact ⟨rfl, rfl, Or.inl rfl⟩
  | some bs =>
    dsimp only
    split
    · exact ⟨rfl, rfl, Or.inr rfl⟩
    · exact ⟨rfl, rfl, Or.inr rfl⟩

/-! ## C1 -/

/-- C1: for each media kind, invoking the handler twice with the same
message id within one process lifetime performs at most one uploader
call in total, and the second invocation is a complete no-op (it returns
the state of the first invocation unchanged, with outcome `skipped`),
because the per-kind in-memory seen-id set admits each id once. -/
theorem c1_media_handler_dedup (env : Env) (s : AppState) (e : MsgEvent) :
    (handle_image_message env (handle_image_message env s e).1 e
       = ((handle_image_message env s e).1, Outcome.skipped)
     ∧ (handle_image_message env s e).1.uploadArgs.length
       ≤ s.uploadArgs.length + 1)
    ∧ (handle_video_message env (handle_video_message env s e).1 e
       = ((handle_video_message env s e).1, Outcome.skipped)
     ∧ (handle_video_message env s e).1.uploadArgs.length
       ≤ s.uploadArgs.length + 1) := by
  constructor
  · by_cases h : e.messageId ∈ s.processed_image_ids
    · constructor
      · simp [handle_image_message, h]
      · simp [handle_image_message, h]
    · have hrest := handle_image_rest_state env
        { s with processed_image_ids := e.messageId :: s.processed_image_ids } e
      constructor
      · simp [handle_image_message, h, hrest.1]
      · rcases hrest.2.2 with hu | hu <;>
          simp [handle_image_message, h, hu]
    
  · by_cases h : e.messageId ∈ s.processed_video_ids
    · constructor
      · simp [handle_video_message, h]
      · simp [handle_video_message, h]
    · have hrest := handle_video_rest_state env
        { s with processed_video_ids := e.messageId :: s.processed_video_ids } e
      constructor
      · simp [handle_video_message, h, hrest.2.1]
      · rcases hrest.2.2 with hu | hu <;>
          simp [handle_video_message, h, hu]

/-! ## C6 -/

/-- C6 counterexample: with the content fetch raising (so the dispatch
fails before any upload), the first invocation of the image handler ends
`raised` and nonetheless records the message id in the seen set, and a
redelivery of the same id within the same process is skipped — contrary
to the claim that the id is recorded only on successful dispatch and a
failed id is processed again. -/
theorem c6_counterexample :
    (handle_image_message env0 state0 ev1).2 = Outcome.raised
    ∧ (handle_image_message env0 state0 ev1).1.processed_image_ids = ["m1"]
    ∧ (handle_image_message env0 (handle_image_message env0 state0 ev1).1
        ev1).2 = Outcome.skipped := by
  exact ⟨rfl, rfl, rfl⟩

/-- C6 amended: the SeenMessageId membership record for a media event's
messageId is created at the start of the first dispatch attempt — before
the content fetch and the upload, hence regardless of whether the
dispatch succeeds — and a redelivery of the same id within the same
process is skipped even when that first dispatch failed. -/
theorem c6_amended_seen_recorded_on_first_attempt (env : Env) (s : AppState)
    (e : MsgEvent) :
    (e.messageId ∈ (handle_image_message env s e).1.processed_image_ids
     ∧ handle_image_message env (handle_image_message env s e).1 e
       = ((handle_image_message env s e).1, Outcome.skipped))
    ∧ (e.messageId ∈ (handle_video_message env s e).1.processed_video_ids
     ∧ handle_video_message env (handle_video_message env s e).1 e
       = ((handle_video_message env s e).1, Outcome.skipped)) := by
  constructor
  · by_cases h : e.messageId ∈ s.processed_image_ids
    · constructor
      · simp [handle_image_message, h]
      · simp [handle_image_message, h]
    · have hrest := handle_image_rest_state env
        { s with processed_image_ids := e.messageId :: s.processed_image_ids } e
      constructor
      · simp [handle_image_message, h, hrest.1]
      · simp [handle_image_message, h, hrest.1]
  · by_cases h : e.messageId ∈ s.processed_video_ids
    · constructor
      · simp [handle_video_message, h]
      · simp [handle_video_message, h]
    · have hrest := handle_video_rest_state env
        { s with processed_video_ids := e.messageId :: s.processed_video_ids } e
      constructor
      · simp [handle_video_message, h, hrest.2.1]
      · simp [handle_video_message, h, hrest.2.1]

/-! ## C4 -/

/-- C4 counterexample: on a server whose local timezone is UTC−2, the
image handler uploads the event with timestamp 1000000000000 ms
(2001-09-09T01:46:40Z) into day folder `2001-09-08` — the local day, not
the UTC day `2001-09-09` the claim requires. -/
theorem c4_counterexample :
    ((handle_image_message envWest state0 ev1).1.uploadArgs.map
        fun p => p.2) = [("2001-09-08").toList]
    ∧ utcDayString ev1.timestampMs = ("2001-09-09").toList
    ∧ (("2001-09-08").toList : List Char) ≠ ("2001-09-09").toList := by
  exact ⟨rfl, rfl, by decide⟩

/-- C4 amended: for every inbound media event, the destination day
folder passed to the uploader is the `YYYY-MM-DD` day string of the
event timestamp converted to the server's local wall-clock time
(`datetime.fromtimestamp`), i.e. of the timestamp shifted by the local
UTC offset — which coincides with the UTC day only when that shift does
not cross a day boundary. -/
theorem c4_amended_day_folder_is_local_day (env : Env) (s : AppState)
    (e : MsgEvent) :
    ((handle_image_message env s e).1.uploadArgs = s.uploadArgs
     ∨ (handle_image_message env s e).1.uploadArgs
       = s.uploadArgs ++ [(image_filename env e,
           localDayString env.tzOffset e.timestampMs)])
    ∧ ((handle_video_message env s e).1.uploadArgs = s.uploadArgs
     ∨ (handle_video_message env s e).1.uploadArgs
       = s.uploadArgs ++ [(video_filename env e,
           localDayString env.tzOffset e.timestampMs)]) := by
  constructor
  · by_cases h : e.messageId ∈ s.processed_image_ids
    · exact Or.inl (by simp [handle_image_message, h])
    · have hrest := handle_image_rest_state env
        { s with processed_image_ids := e.messageId :: s.processed_image_ids } e
      rcases hrest.2.2 with hu | hu
      · exact Or.inl (by simp [handle_image_message, h, hu])
      · exact Or.inr (by simp [handle_image_message, h, hu])
  · by_cases h : e.messageId ∈ s.processed_video_ids
    · exact Or.inl (by simp [handle_video_message, h])
    · have hrest := handle_video_rest_state env
        { s with processed_video_ids := e.messageId :: s.processed_video_ids } e
      rcases hrest.2.2 with hu | hu
      · exact Or.inl (by simp [handle_video_message, h, hu])
      · exact Or.inr (by simp [handle_video_message, h, hu])

/-! ## C2 -/

/-- C2 counterexample: a request with a valid signature whose batch
contains a postback event with malformed data does not return HTTP 200
`OK`: the handler's exception escapes the endpoint (only
`InvalidSignatureError` is caught), so the claim's second half fails. -/
theorem c2_counterexample :
    callback env0 state0 true [InEvent.postback ("u") (("a").toList)]
      = (state0, CallbackResult.exn) := rfl

/-- C2 amended: a request whose `X-Line-Signature` fails verification is
answered with HTTP 400 and produces no persistence or upload side effect
(the state is returned unchanged: no log append, no database insert, no
storage upload, no seen-id mutation); a request with a valid signature is
answered with HTTP 200 and body `OK` after all events in the batch are
processed, provided no event handler raises — a handler exception
escapes the endpoint instead of the 200 response. -/
theorem c2_amended_callback (env : Env) (s : AppState)
    (events : List InEvent) :
    callback env s false events = (s, CallbackResult.aborted400)
    ∧ ((process_events env s events).2 = false →
      callback env s true events
        = ((process_events env s events).1, CallbackResult.ok200 ("OK"))) := by
  constructor
  · simp [callback]
  · intro h
    rcases hp : process_events env s events with ⟨s1, b⟩
    rw [hp] at h
    simp only at h
    subst h
    simp [callback, hp]

/-- Witness for C2 amended: a concrete rejected request and a concrete
accepted one-text-event batch. -/
theorem c2_amended_witness :
    callback env0 state0 false [InEvent.postback ("u") (("a").toList)]
      = (state0, CallbackResult.aborted400)
    ∧ callback env0 state0 true [InEvent.text ("u") (("hi").toList) 0]
      = ((process_events env0 state0
            [InEvent.text ("u") (("hi").toList) 0]).1,
         CallbackResult.ok200 ("OK")) := by
  exact ⟨(c2_amended_callback env0 state0 _).1,
    (c2_amended_callback env0 state0 _).2 rfl⟩

/-! ## C3 and C7 -/

/-- Entering the `建立相簿:` branch: a stripped text of the form
prefix-plus-remainder is not the bare command, passes the Boolean prefix
test, and dropping the prefix leaves the remainder. -/
theorem album_cmd_branch (rawText rest : List Char)
    (h1 : pyStripL rawText = albumCmdColon ++ rest) :
    ¬ pyStripL rawText = albumCmd
    ∧ albumCmdColon.isPrefixOf (pyStripL rawText) = true
    ∧ (pyStripL rawText).drop albumCmdColon.length = rest := by
  refine ⟨?_, ?_, ?_⟩
  · rw [h1]
    intro hcon
    have hlen := congrArg List.length hcon
    rw [List.length_append] at hlen
    have e1 : albumCmdColon.length = 5 := by decide
    have e2 : albumCmd.length = 4 := by decide
    rw [e1, e2] at hlen
    omega
  · rw [h1]; exact isPrefixOf_append_self _ _
  · rw [h1]; exact List.drop_left _ _

/-- C3: for every text whose stripped form is `建立相簿:` followed by a
remainder, when the remainder (stripped) contains a comma and the part
before the first comma parses (after trimming) as a `YYYY-MM-DD` date,
the handler composes `fullAlbumName = datePart + "_" + albumName` from
the two trimmed parts and replies with the confirmation containing
exactly that string, changing nothing else in the state. -/
theorem c3_create_album_compose (env : Env) (s : AppState) (userId : String)
    (rawText rest dpRaw anRaw : List Char) (ts : Int) (ymd : Nat × Nat × Nat)
    (h1 : pyStripL rawText = albumCmdColon ++ rest)
    (h2 : splitFirst ',' (pyStripL rest) = some (dpRaw, anRaw))
    (h3 : parseDateYMD (pyStripL dpRaw) = some ymd) :
    handle_text_message env s userId rawText ts
      = ({ s with replies := s.replies ++
            [createdReply (pyStripL dpRaw ++ '_' :: pyStripL anRaw)] },
         Outcome.completed) := by
  obtain ⟨hne, hpre, hdrop⟩ := album_cmd_branch rawText rest h1
  simp [handle_text_message, hne, hpre, hdrop, h2, h3]

/-- Witness for C3 at the spec's example: `建立相簿: 2023-03-12, 我的假期`
yields the confirmation for exactly `2023-03-12_我的假期`. -/
theorem c3_witness :
    handle_text_message env0 state0 ("u")
      (("建立相簿: 2023-03-12, 我的假期").toList) 0
      = ({ state0 with
            replies := [createdReply (("2023-03-12_我的假期").toList)] },
         Outcome.completed) := by
  exact (c3_create_album_compose env0 state0 ("u")
    (("建立相簿: 2023-03-12, 我的假期").toList)
    ((" 2023-03-12, 我的假期").toList)
    (("2023-03-12").toList) ((" 我的假期").toList) 0 (2023, 3, 12)
    (by decide) (by decide) (by decide)).trans (by decide)

/-- C7: for every text whose stripped form is `建立相簿:` followed by a
malformed remainder — no comma, or a first part that does not parse as a
`YYYY-MM-DD` date — the handler replies with the corresponding
corrective message (format error, resp. invalid date) and performs no
other state change: no local log append, no database insert, no upload,
no seen-id mutation. -/
theorem c7_malformed_album_command (env : Env) (s : AppState)
    (userId : String) (rawText rest : List Char) (ts : Int)
    (h1 : pyStripL rawText = albumCmdColon ++ rest) :
    (splitFirst ',' (pyStripL rest) = none →
      handle_text_message env s userId rawText ts
        = ({ s with replies := s.replies ++ [formatErrorMsg] },
           Outcome.completed))
    ∧ (∀ dpRaw anRaw, splitFirst ',' (pyStripL rest) = some (dpRaw, anRaw) →
      parseDateYMD (pyStripL dpRaw) = none →
      handle_text_message env s userId rawText ts
        = ({ s with replies := s.replies ++ [badDateMsg] },
           Outcome.completed)) := by
  obtain ⟨hne, hpre, hdrop⟩ := album_cmd_branch rawText rest h1
  constructor
  · intro h2
    simp [handle_text_message, hne, hpre, hdrop, h2]
  · intro dpRaw anRaw h2 h3
    simp [handle_text_message, hne, hpre, hdrop, h2, h3]

/-- Witness for C7: a command without a comma gets the format-error
reply; `建立相簿: not-a-date, X` gets the invalid-date reply; neither
changes anything but the reply list. -/
theorem c7_witness :
    handle_text_message env0 state0 ("u")
      (("建立相簿: 2023-03-12 我的假期").toList) 0
      = ({ state0 with replies := [formatErrorMsg] }, Outcome.completed)
    ∧ handle_text_message env0 state0 ("u")
      (("建立相簿: not-a-date, X").toList) 0
      = ({ state0 with replies := [badDateMsg] }, Outcome.completed) := by
  constructor
  · exact ((c7_malformed_album_command env0 state0 ("u")
      (("建立相簿: 2023-03-12 我的假期").toList)
      ((" 2023-03-12 我的假期").toList) 0 (by decide)).1
      (by decide)).trans (by decide)
  · exact ((c7_malformed_album_command env0 state0 ("u")
      (("建立相簿: not-a-date, X").toList)
      ((" not-a-date, X").toList) 0 (by decide)).2
      (("not-a-date").toList) ((" X").toList)
      (by decide) (by decide)).trans (by decide)
